import Mathlib

/-!
# Verification of the ts2 simulation core (`src/ts2/simulation.py`)

Shallow embedding of the interlocking and simulation-timing engine of the
ts2 railway simulator: the track-link builder (`createTrackItemsLinks`), the
link validator (`checkTrackItemsLinks`), the route / interlocking controller
(`activateRoute`, `desactivateRoute`, `findRoute`), the simulation clock
(`setTimeFactor`, `timerOut`) and the JSON dispatch (`json_hook`, `load`).

Conventions of the embedding:

* Python floats (track coordinates, elapsed seconds) are modelled by `ℚ`.
  `Simulation.distanceBetween` computes `sqrt(dx**2 + dy**2)` and every use
  in the source compares it with the threshold `1.0`; since
  `sqrt d ≤ 1 ↔ d ≤ 1` for `d ≥ 0`, the square root is not modelled and all
  comparisons are on the squared distance.
* The `OrderedDict` collections (`_trackItems`, `_routes`) are modelled by
  association lists `List (Nat × _)` in iteration (insertion) order.
* Qt signal emissions and `messageLogger.addMessage` calls are modelled by
  appending to explicit `notifications` / `messages` lists in the state.
* Python `dict[k]` indexing is modelled by `Except` with a `keyError`
  result, while `dict.get(k, None)` is modelled by `Option`.
* Classes that live outside `src/` (`ts2.routing.route.Route`,
  `ts2.scenery.signals.signalitem.SignalItem`, the scenery item classes)
  are modelled from the spec; each such definition carries a doc comment
  starting with `Modelled from the spec:`.
-/

namespace TS2

/-- A planar point with rational coordinates, modelling the floating-point
`QPointF` coordinates of track items. -/
structure Point where
  x : ℚ
  y : ℚ
  deriving DecidableEq, Repr

/-- Squared Euclidean distance between two points.
`Simulation.distanceBetween` (simulation.py:675-681) returns
`sqrt((p1.x-p2.x)**2 + (p1.y-p2.y)**2)`; every call site compares the result
with `1.0`, and `sqrt d ≤ 1 ↔ d ≤ 1` for `d ≥ 0`, so the embedding keeps the
squared distance. -/
def distanceBetweenSq (p1 p2 : Point) : ℚ :=
  (p1.x - p2.x) * (p1.x - p2.x) + (p1.y - p2.y) * (p1.y - p2.y)

/-- The concrete track-item classes dispatched by `json_hook`
(simulation.py:62-77) and tested with `isinstance` by the builder and the
validator. -/
inductive TICat where
  | lineItem
  | pointsItem
  | endItem
  | platformItem
  | placeItem
  | textItem
  | signalItem
  | invisibleLinkItem
  deriving DecidableEq, Repr

/-- Modelled from the spec: the scenery classes are not under `src/`, so a
track item is the record of the fields the `src/` code reads: identity,
category, `origin` / `end` / (switch-only) `reverse` coordinates, the
`previousItem` / `nextItem` / `reverseItem` links (held by id) populated by
the builder, and the transient selection flag of signal items.  `endp`
stands for the source's `end` property (`end` is reserved in Lean). -/
structure TrackItem where
  tiId : Nat
  cat : TICat
  origin : Point
  endp : Point
  reverse : Point
  previousItem : Option Nat := none
  nextItem : Option Nat := none
  reverseItem : Option Nat := none
  selected : Bool := false
  deriving DecidableEq, Repr

/-- `isinstance(ti, pointsitem.PointsItem)`. -/
def TrackItem.isPoints (ti : TrackItem) : Bool :=
  ti.cat == TICat.pointsItem

/-- One pair evaluation of `Simulation.createTrackItemsLinks`
(simulation.py:617-643): the body of the double loop for a key pair
`ki < kj`, an `if/elif` chain of endpoint-distance comparisons in which the
first comparison within the threshold assigns both sides' link roles and
ends the evaluation of the pair. -/
def linkPair (vi vj : TrackItem) : TrackItem × TrackItem :=
  if distanceBetweenSq vi.origin vj.origin ≤ 1 then
    ({ vi with previousItem := some vj.tiId },
     { vj with previousItem := some vi.tiId })
  else if distanceBetweenSq vi.origin vj.endp ≤ 1 then
    ({ vi with previousItem := some vj.tiId },
     { vj with nextItem := some vi.tiId })
  else if distanceBetweenSq vi.endp vj.origin ≤ 1 then
    ({ vi with nextItem := some vj.tiId },
     { vj with previousItem := some vi.tiId })
  else if distanceBetweenSq vi.endp vj.endp ≤ 1 then
    ({ vi with nextItem := some vj.tiId },
     { vj with nextItem := some vi.tiId })
  else if vi.isPoints then
    if distanceBetweenSq vi.reverse vj.origin ≤ 1 then
      ({ vi with reverseItem := some vj.tiId },
       { vj with previousItem := some vi.tiId })
    else if distanceBetweenSq vi.reverse vj.endp ≤ 1 then
      ({ vi with reverseItem := some vj.tiId },
       { vj with nextItem := some vi.tiId })
    else (vi, vj)
  else if vj.isPoints then
    if distanceBetweenSq vi.origin vj.reverse ≤ 1 then
      ({ vi with previousItem := some vj.tiId },
       { vj with reverseItem := some vi.tiId })
    else if distanceBetweenSq vi.endp vj.reverse ≤ 1 then
      ({ vi with nextItem := some vj.tiId },
       { vj with reverseItem := some vi.tiId })
    else (vi, vj)
  else (vi, vj)

/-- Writes an updated track item back into the id-keyed association list
(the effect of mutating the Python object held by the dict). -/
def setItem (m : List (Nat × TrackItem)) (k : Nat) (v : TrackItem) :
    List (Nat × TrackItem) :=
  m.map fun p => if p.1 == k then (p.1, v) else p

/-- One iteration of the double loop of `createTrackItemsLinks` for the key
pair `(ki, kj)`: read both items, evaluate the comparison chain, write both
(possibly updated) items back. -/
def applyLinkPair (m : List (Nat × TrackItem)) (ki kj : Nat) :
    List (Nat × TrackItem) :=
  match List.lookup ki m, List.lookup kj m with
  | some vi, some vj =>
    let r := linkPair vi vj
    setItem (setItem m ki r.1) kj r.2
  | _, _ => m

/-- The key pairs visited by the double loop
`for ki, vi in items: for kj, vj in items: if ki < kj:` in dict iteration
order (simulation.py:615-617). -/
def orderedPairs (keys : List Nat) : List (Nat × Nat) :=
  keys.foldl
    (fun acc ki =>
      acc ++ keys.filterMap fun kj => if ki < kj then some (ki, kj) else none)
    []

/-- `Simulation.createTrackItemsLinks` (simulation.py:609-643): visits every
key pair `ki < kj` in dict order and applies the linking chain to it. -/
def createTrackItemsLinks (m : List (Nat × TrackItem)) :
    List (Nat × TrackItem) :=
  (orderedPairs (m.map Prod.fst)).foldl
    (fun acc pr => applyLinkPair acc pr.1 pr.2) m

/-- The link role a matching endpoint comparison assigns to one side of a
pair: `previousItem`, `nextItem` or `reverseItem`. -/
inductive LinkRole where
  | prevRole
  | nextRole
  | revRole
  deriving DecidableEq, Repr

/-- Assign one link role on a track item, pointing at the other item. -/
def assignLink (ti : TrackItem) (other : Nat) : LinkRole → TrackItem
  | LinkRole.prevRole => { ti with previousItem := some other }
  | LinkRole.nextRole => { ti with nextItem := some other }
  | LinkRole.revRole => { ti with reverseItem := some other }

/-- A comparison candidate: the two compared points and the link role each
side receives if the comparison matches. -/
def Candidate : Type := Point × Point × LinkRole × LinkRole

instance : DecidableEq Candidate := by
  unfold Candidate
  infer_instance

/-- The comparison candidates of the source's chain, in its precedence
order: the four endpoint pairs, then — when the first item is a switch — its
reverse point against the second's origin and end, otherwise — when the
second item is a switch — the first's origin and end against its reverse
point.  (In the source the two switch branches are joined by `elif`, so the
second item's reverse point is never examined when the first item is a
switch.) -/
def linkCandidates (vi vj : TrackItem) : List Candidate :=
  [(vi.origin, vj.origin, LinkRole.prevRole, LinkRole.prevRole),
   (vi.origin, vj.endp, LinkRole.prevRole, LinkRole.nextRole),
   (vi.endp, vj.origin, LinkRole.nextRole, LinkRole.prevRole),
   (vi.endp, vj.endp, LinkRole.nextRole, LinkRole.nextRole)] ++
  (if vi.isPoints then
    [(vi.reverse, vj.origin, LinkRole.revRole, LinkRole.prevRole),
     (vi.reverse, vj.endp, LinkRole.revRole, LinkRole.nextRole)]
   else if vj.isPoints then
    [(vi.origin, vj.reverse, LinkRole.prevRole, LinkRole.revRole),
     (vi.endp, vj.reverse, LinkRole.nextRole, LinkRole.revRole)]
   else [])

/-- First-match semantics over a candidate list: the first candidate whose
squared distance is within the threshold assigns both link roles; if none
matches, the pair is left unchanged. -/
def firstMatchOver (cs : List Candidate) (vi vj : TrackItem) :
    TrackItem × TrackItem :=
  match cs.find? (fun c => decide (distanceBetweenSq c.1 c.2.1 ≤ 1)) with
  | none => (vi, vj)
  | some c => (assignLink vi vj.tiId c.2.2.1, assignLink vj vi.tiId c.2.2.2)

/-- The amended per-pair description: first match over `linkCandidates`. -/
def firstMatchLink (vi vj : TrackItem) : TrackItem × TrackItem :=
  firstMatchOver (linkCandidates vi vj) vi vj

/-- The comparison candidates as claim C2 words them: after the four
endpoint pairs, *whenever* a side is a switch element, that switch's reverse
point is compared against the other side's origin and end — so with two
switch items both reverse points are examined. -/
def claimLinkCandidates (vi vj : TrackItem) : List Candidate :=
  [(vi.origin, vj.origin, LinkRole.prevRole, LinkRole.prevRole),
   (vi.origin, vj.endp, LinkRole.prevRole, LinkRole.nextRole),
   (vi.endp, vj.origin, LinkRole.nextRole, LinkRole.prevRole),
   (vi.endp, vj.endp, LinkRole.nextRole, LinkRole.nextRole)] ++
  (if vi.isPoints then
    [(vi.reverse, vj.origin, LinkRole.revRole, LinkRole.prevRole),
     (vi.reverse, vj.endp, LinkRole.revRole, LinkRole.nextRole)]
   else []) ++
  (if vj.isPoints then
    [(vi.origin, vj.reverse, LinkRole.prevRole, LinkRole.revRole),
     (vi.endp, vj.reverse, LinkRole.nextRole, LinkRole.revRole)]
   else [])

/-- Per-pair linking under claim C2's description. -/
def claimLinkPair (vi vj : TrackItem) : TrackItem × TrackItem :=
  firstMatchOver (claimLinkCandidates vi vj) vi vj

/-- One double-loop iteration under claim C2's description. -/
def claimApplyLinkPair (m : List (Nat × TrackItem)) (ki kj : Nat) :
    List (Nat × TrackItem) :=
  match List.lookup ki m, List.lookup kj m with
  | some vi, some vj =>
    let r := claimLinkPair vi vj
    setItem (setItem m ki r.1) kj r.2
  | _, _ => m

/-- The whole builder under claim C2's description. -/
def claimCreateTrackItemsLinks (m : List (Nat × TrackItem)) :
    List (Nat × TrackItem) :=
  (orderedPairs (m.map Prod.fst)).foldl
    (fun acc pr => claimApplyLinkPair acc pr.1 pr.2) m

/-- One double-loop iteration with the first-match description of the
amended claim. -/
def applyFirstMatch (m : List (Nat × TrackItem)) (ki kj : Nat) :
    List (Nat × TrackItem) :=
  match List.lookup ki m, List.lookup kj m with
  | some vi, some vj =>
    let r := firstMatchLink vi vj
    setItem (setItem m ki r.1) kj r.2
  | _, _ => m

/-- The whole builder with the first-match description of the amended
claim. -/
def buildFirstMatch (m : List (Nat × TrackItem)) : List (Nat × TrackItem) :=
  (orderedPairs (m.map Prod.fst)).foldl
    (fun acc pr => applyFirstMatch acc pr.1 pr.2) m

/-- A switch item whose reverse point is far from everything: origin
`(0,0)`, end `(10,0)`, reverse `(20,20)`. -/
def exSwA : TrackItem :=
  { tiId := 1, cat := TICat.pointsItem, origin := ⟨0, 0⟩, endp := ⟨10, 0⟩,
    reverse := ⟨20, 20⟩ }

/-- A second switch item whose reverse point `(0,0)` coincides with
`exSwA`'s origin while all of its other endpoints are far away. -/
def exSwB : TrackItem :=
  { tiId := 2, cat := TICat.pointsItem, origin := ⟨50, 50⟩,
    endp := ⟨60, 50⟩, reverse := ⟨0, 0⟩ }

/-- A two-element topology made of the two switches above. -/
def exSwMap : List (Nat × TrackItem) := [(1, exSwA), (2, exSwB)]

/-! ## Link validator -/

/-- The loop body of `Simulation.checkTrackItemsLinks`
(simulation.py:655-672): items of the place / platform / text categories are
skipped; otherwise a missing `nextItem` on a non-terminator and a missing
`previousItem` each force the result to `False` and append a log message
(text abridged to the item id; the source also prints the offending
coordinate). -/
def checkLinksLoop (acc : Bool × List String) :
    List (Nat × TrackItem) → Bool × List String
  | [] => acc
  | p :: rest =>
    let ti := p.2
    if ti.cat == TICat.placeItem || ti.cat == TICat.platformItem ||
        ti.cat == TICat.textItem then
      checkLinksLoop acc rest
    else
      let acc1 :=
        if ti.nextItem == none && !(ti.cat == TICat.endItem) then
          (false,
           acc.2 ++ ["TrackItem " ++ toString ti.tiId ++ " is unlinked at end"])
        else acc
      let acc2 :=
        if ti.previousItem == none then
          (false,
           acc1.2 ++
             ["TrackItem " ++ toString ti.tiId ++ " is unlinked at origin"])
        else acc1
      checkLinksLoop acc2 rest

/-- `Simulation.checkTrackItemsLinks` (simulation.py:645-673): starts with
`result = True` (and the "Checking TrackItem links" log line), scans every
item with no early exit, and returns the flag together with the logged
messages. -/
def checkTrackItemsLinks (items : List (Nat × TrackItem)) :
    Bool × List String :=
  checkLinksLoop (true, ["Checking TrackItem links"]) items

/-- The number of link violations one item contributes (0, 1 or 2):
the missing-next violation for required non-terminators and the
missing-previous violation for required items. -/
def itemViolations (ti : TrackItem) : Nat :=
  if ti.cat == TICat.placeItem || ti.cat == TICat.platformItem ||
      ti.cat == TICat.textItem then 0
  else
    (if ti.nextItem == none && !(ti.cat == TICat.endItem) then 1 else 0) +
    (if ti.previousItem == none then 1 else 0)

/-- Total number of link violations over a topology. -/
def totalViolations (items : List (Nat × TrackItem)) : Nat :=
  items.foldr (fun p acc => itemViolations p.2 + acc) 0

/-! ## Routes and the interlocking controller -/

/-- Notifications (Qt signals) emitted by the simulation core
(simulation.py:440-461), with the payloads the claims mention; routes and
signals are carried by id. -/
inductive Notification where
  | conflictingRoute (routeNum : Nat)
  | noRouteBetweenSignals (si1 si2 : Nat)
  | timeChanged (timeMs : Int)
  | timeElapsed (secs : ℚ)
  deriving DecidableEq, Repr

/-- Modelled from the spec: `ts2.routing.route.Route` is not under `src/`.
Per §3, a route is a directional pair of boundary signals (`beginSignal`,
`endSignal`), an ordered list of constituent element ids, and an activation
state with a persistent flag. -/
structure Route where
  routeNum : Nat
  beginSignal : Nat
  endSignal : Nat
  items : List Nat
  active : Bool := false
  persistent : Bool := false
  deriving DecidableEq, Repr

/-- Modelled from the spec: `Route.links(si1, si2)` (not under `src/`) holds
iff the route's entry signal is `si1` and its exit signal is `si2`,
"exactly in that order" (§4.3). -/
def Route.links (r : Route) (si1 si2 : Nat) : Bool :=
  r.beginSignal == si1 && r.endSignal == si2

/-- The simulation state the controller claims touch: the track-item and
route dictionaries in insertion order, the armed signal
(`_selectedSignal`, by id), and the emitted notifications and logged
messages. -/
structure SimState where
  trackItems : List (Nat × TrackItem)
  routes : List (Nat × Route)
  selectedSignal : Option Nat := none
  notifications : List Notification := []
  messages : List String := []
  deriving DecidableEq, Repr

/-- Errors surfaced by the embedded operations: a Python `KeyError` on
direct dict indexing, and `utils.FormatException`. -/
inductive SimErr where
  | keyError (key : Nat)
  | formatException (msg : String)
  deriving DecidableEq, Repr

/-- A Qt signal emission, recorded in the state. -/
def emit (st : SimState) (n : Notification) : SimState :=
  { st with notifications := st.notifications ++ [n] }

/-- `messageLogger.addMessage`, recorded in the state. -/
def addMessage (st : SimState) (m : String) : SimState :=
  { st with messages := st.messages ++ [m] }

/-- Modelled from the spec: `SignalItem.unselect`
(`ts2.scenery.signals.signalitem` is not under `src/`) clears the signal's
transient selection flag (§3: selection is pure in-memory session state). -/
def unselectTI (st : SimState) (k : Nat) : SimState :=
  { st with
    trackItems := st.trackItems.map fun p =>
      if p.1 == k then (p.1, { p.2 with selected := false }) else p }

/-- Modelled from the spec: `Route.activate(persistent)` (not under `src/`)
marks the route active and records the persistent flag (§3, §4.3). -/
def activateRouteState (st : SimState) (rn : Nat) (persistent : Bool) :
    SimState :=
  { st with
    routes := st.routes.map fun p =>
      if p.2.routeNum == rn then
        (p.1, { p.2 with active := true, persistent := persistent })
      else p }

/-- Modelled from the spec: `Route.desactivate` (not under `src/`) marks the
route inactive. -/
def desactivateRouteState (st : SimState) (rn : Nat) : SimState :=
  { st with
    routes := st.routes.map fun p =>
      if p.2.routeNum == rn then (p.1, { p.2 with active := false }) else p }

/-- Modelled from the spec: `Route.isActivable` (not under `src/`): a route
is activatable iff none of its constituent element ids intersects the
constituent element ids of any other currently-active route (§4.3). -/
def isActivable (st : SimState) (r : Route) : Bool :=
  st.routes.all fun p =>
    !p.2.active || p.2.routeNum == r.routeNum ||
      p.2.items.all fun i => !r.items.contains i

/-- Modelled from the spec: `SignalItem.nextActiveRoute` (not under `src/`):
the active route whose entry signal is this signal, if any (§4.3,
deactivation). -/
def nextActiveRoute (st : SimState) (siId : Nat) : Option Route :=
  (st.routes.find? fun p => p.2.active && p.2.beginSignal == siId).map
    Prod.snd

/-- The scan loop of `Simulation.findRoute` (simulation.py:604-607):
`for r in self._routes.values(): if r.links(si1, si2): return r`. -/
def findRouteIn (routes : List (Nat × Route)) (si1 si2 : Nat) :
    Option Route :=
  match routes with
  | [] => none
  | p :: rest =>
    if p.2.links si1 si2 then some p.2 else findRouteIn rest si1 si2

/-- `Simulation.findRoute` (simulation.py:593-607): linear scan of the route
dictionary's values in order, returning the first route linking `si1` to
`si2`, else `None`. -/
def findRoute (st : SimState) (si1 si2 : Nat) : Option Route :=
  findRouteIn st.routes si1 si2

/-- `Simulation.trackItem` (simulation.py:394-400):
`self._trackItems.get(tiId, None)`. -/
def trackItem (st : SimState) (tiId : Nat) : Option TrackItem :=
  List.lookup tiId st.trackItems

/-- `Simulation.activateRoute` (simulation.py:469-527).  The first line
`si = self._trackItems[siId]` indexes the dict directly and raises
`KeyError` for an unknown id.  Then: first selection (or re-selection of
the armed signal) just arms `siId`; with a second, different signal
selected, the armed-to-selected route is looked up; if it exists and is
activatable (or `force` is set) it is activated and both signals are
unselected and disarmed; if it exists but is blocked, the conflict
notification is emitted, only the second signal is unselected and the armed
signal is left armed; if no route exists, the no-route notification is
emitted, the armed signal is unselected and the second signal becomes the
armed one. -/
def activateRoute (st : SimState) (siId : Nat)
    (persistent force : Bool) : Except SimErr SimState :=
  match List.lookup siId st.trackItems with
  | none => Except.error (SimErr.keyError siId)
  | some _ =>
    match st.selectedSignal with
    | none => Except.ok { st with selectedSignal := some siId }
    | some a =>
      if a = siId then Except.ok { st with selectedSignal := some siId }
      else
        match findRoute st a siId with
        | some r =>
          if isActivable st r || force then
            let st1 := activateRouteState st r.routeNum persistent
            let st2 := unselectTI st1 a
            let st3 := { st2 with selectedSignal := none }
            Except.ok (unselectTI st3 siId)
          else
            let st1 := emit st (Notification.conflictingRoute r.routeNum)
            let st2 := unselectTI st1 siId
            Except.ok (addMessage st2 "Conflicting route")
        | none =>
          let st1 := emit st (Notification.noRouteBetweenSignals a siId)
          let st2 := unselectTI st1 a
          let st3 := { st2 with selectedSignal := some siId }
          Except.ok (addMessage st3 "No route between signals")

/-- `Simulation.desactivateRoute` (simulation.py:529-547).  The first line
`si = self._trackItems[siId]` indexes the dict directly and raises
`KeyError` for an unknown id; then any armed signal is unselected and
disarmed unconditionally, and the active route headed by `siId` (if any) is
deactivated. -/
def desactivateRoute (st : SimState) (siId : Nat) : Except SimErr SimState :=
  match List.lookup siId st.trackItems with
  | none => Except.error (SimErr.keyError siId)
  | some _ =>
    let st1 :=
      match st.selectedSignal with
      | none => st
      | some a => { unselectTI st a with selectedSignal := none }
    match nextActiveRoute st1 siId with
    | none => Except.ok st1
    | some r => Except.ok (desactivateRouteState st1 r.routeNum)

/-! ## Simulation clock -/

/-- The clock-related state: current simulated time in milliseconds of the
day (`QTime`), the timer interval, whether the timer is running, and the
`timeFactor` option. -/
structure ClockState where
  timeMs : Int
  interval : Int
  timerRunning : Bool
  timeFactor : Int
  deriving DecidableEq, Repr

/-- Milliseconds in a day; `QTime` arithmetic wraps at midnight. -/
def msPerDay : Int := 86400000

/-- The clock state produced by `Simulation.initialize`
(simulation.py:214-220) under the builtin option defaults
(simulation.py:38-51): `currentTime = "06:00:00"` (21600000 ms),
`timeFactor = 5`, `interval = 500`, timer started. -/
def initialClock : ClockState :=
  { timeMs := 21600000, interval := 500, timerRunning := true,
    timeFactor := 5 }

/-- `Simulation.setTimeFactor` (simulation.py:560-568): stop the timer,
store `min(timeFactor, 10)` in the options, and restart the timer iff the
argument is nonzero. -/
def setTimeFactor (st : ClockState) (timeFactor : Int) : ClockState :=
  let st1 := { st with timerRunning := false }
  let st2 := { st1 with timeFactor := min timeFactor 10 }
  if timeFactor ≠ 0 then { st2 with timerRunning := true } else st2

/-- `Simulation.timerOut` (simulation.py:570-579): advance the simulated
time by `interval * timeFactor` milliseconds (`QTime.addMSecs`, wrapping
within the day) and emit `timeChanged` with the new time followed by
`timeElapsed` with `interval * timeFactor / 1000` seconds. -/
def timerOut (st : ClockState) : ClockState × List Notification :=
  let f := st.timeFactor
  let newTime := (st.timeMs + st.interval * f).emod msPerDay
  ({ st with timeMs := newTime },
   [Notification.timeChanged newTime,
    Notification.timeElapsed (((st.interval * f : Int) : ℚ) / 1000)])

/-! ## JSON dispatch -/

/-- A persisted record as far as the dispatch logic reads it: its
`__type__` discriminator, if the key is present.  The remaining payload
fields are irrelevant to the dispatch and are not modelled. -/
structure JsonRecord where
  typeField : Option String
  deriving DecidableEq, Repr

/-- The objects `json_hook` can produce: a plain dict passed through
unchanged, or one of the sixteen constructed kinds (payloads are not
modelled). -/
inductive SimObject where
  | rawDict (dct : JsonRecord)
  | simulationObj
  | signalItemObj
  | endItemObj
  | invisibleLinkItemObj
  | lineItemObj
  | placeObj
  | platformItemObj
  | pointsItemObj
  | textItemObj
  | routeObj
  | positionObj
  | trainTypeObj
  | serviceObj
  | serviceLineObj
  | trainObj
  | messageLoggerObj
  | messageObj
  deriving DecidableEq, Repr

/-- `json_hook` (simulation.py:54-98).  `if not dct.get('__type__')` passes
a record through unchanged when the key is missing *or* its value is falsy
(the empty string); otherwise the discriminator is matched against the
sixteen recognized kinds and anything else raises `FormatException`. -/
def json_hook (dct : JsonRecord) : Except SimErr SimObject :=
  match dct.typeField with
  | none => Except.ok (SimObject.rawDict dct)
  | some t =>
    if t = "" then Except.ok (SimObject.rawDict dct)
    else if t = "Simulation" then Except.ok SimObject.simulationObj
    else if t = "SignalItem" then Except.ok SimObject.signalItemObj
    else if t = "EndItem" then Except.ok SimObject.endItemObj
    else if t = "InvisibleLinkItem" then
      Except.ok SimObject.invisibleLinkItemObj
    else if t = "LineItem" then Except.ok SimObject.lineItemObj
    else if t = "Place" then Except.ok SimObject.placeObj
    else if t = "PlatformItem" then Except.ok SimObject.platformItemObj
    else if t = "PointsItem" then Except.ok SimObject.pointsItemObj
    else if t = "TextItem" then Except.ok SimObject.textItemObj
    else if t = "Route" then Except.ok SimObject.routeObj
    else if t = "Position" then Except.ok SimObject.positionObj
    else if t = "TrainType" then Except.ok SimObject.trainTypeObj
    else if t = "Service" then Except.ok SimObject.serviceObj
    else if t = "ServiceLine" then Except.ok SimObject.serviceLineObj
    else if t = "Train" then Except.ok SimObject.trainObj
    else if t = "MessageLogger" then Except.ok SimObject.messageLoggerObj
    else if t = "Message" then Except.ok SimObject.messageObj
    else Except.error (SimErr.formatException ("Unknown __type__ " ++ t))

/-- The discriminators recognized by `json_hook`'s dispatch, in source
order. -/
def recognizedTypes : List String :=
  ["Simulation", "SignalItem", "EndItem", "InvisibleLinkItem", "LineItem",
   "Place", "PlatformItem", "PointsItem", "TextItem", "Route", "Position",
   "TrainType", "Service", "ServiceLine", "Train", "MessageLogger",
   "Message"]

/-- `load` (simulation.py:101-125) after parsing: if the decoded top-level
object is not a `Simulation`, `FormatException` is raised; only on the
success path does `simulation.initialize` (the topology work:
`createTrackItemsLinks` triggers and `checkTrackItemsLinks`) run, which the
returned `true` marks. -/
def load (top : SimObject) : Except SimErr Bool :=
  match top with
  | SimObject.simulationObj => Except.ok true
  | _ =>
    Except.error
      (SimErr.formatException "Loaded file is not a TS2 simulation")

/-! ## Concrete example states used by counterexamples and witnesses -/

/-- The origin point. -/
def pt0 : Point := ⟨0, 0⟩

/-- A selected signal item with the given id (geometry is irrelevant to the
controller claims). -/
def sigTI (i : Nat) : TrackItem :=
  { tiId := i, cat := TICat.signalItem, origin := pt0, endp := pt0,
    reverse := pt0, selected := true }

/-- An inactive route from signal 1 to signal 2 over elements 10 and 11. -/
def exRoute1 : Route :=
  { routeNum := 1, beginSignal := 1, endSignal := 2, items := [10, 11] }

/-- An active route from signal 3 to signal 4 sharing element 11 with
`exRoute1`. -/
def exRoute2 : Route :=
  { routeNum := 2, beginSignal := 3, endSignal := 4, items := [11, 12],
    active := true }

/-- A state in which signal 1 is armed and the route 1→2 is blocked by the
active, element-sharing route `exRoute2`. -/
def exConflict : SimState :=
  { trackItems := [(1, sigTI 1), (2, sigTI 2), (3, sigTI 3), (4, sigTI 4)],
    routes := [(1, exRoute1), (2, exRoute2)],
    selectedSignal := some 1 }

/-- A state in which signal 1 is armed and no route at all is registered. -/
def exNoRoute : SimState :=
  { trackItems := [(1, sigTI 1), (2, sigTI 2)], routes := [],
    selectedSignal := some 1 }

/-- A registry holding only the directional route 1→2. -/
def exRegistry : SimState :=
  { trackItems := [], routes := [(1, exRoute1)] }

/-- A state with no track items at all. -/
def exEmpty : SimState := { trackItems := [], routes := [] }

/-- A clock state ticking backwards: factor −3, as stored by
`setTimeFactor(-3)`. -/
def exBackClock : ClockState :=
  { timeMs := 21600000, interval := 500, timerRunning := true,
    timeFactor := -3 }

/-! ## Theorems -/

/-- Helper: `linkPair` equals first-match evaluation of the candidate list
`linkCandidates`. -/
lemma linkPair_eq_firstMatchLink (vi vj : TrackItem) :
    linkPair vi vj = firstMatchLink vi vj := by
  by_cases h1 : distanceBetweenSq vi.origin vj.origin ≤ 1
  · simp [linkPair, firstMatchLink, firstMatchOver, linkCandidates,
      assignLink, List.find?, h1]
  · by_cases h2 : distanceBetweenSq vi.origin vj.endp ≤ 1
    · simp [linkPair, firstMatchLink, firstMatchOver, linkCandidates,
        assignLink, List.find?, h1, h2]
    · by_cases h3 : distanceBetweenSq vi.endp vj.origin ≤ 1
      · simp [linkPair, firstMatchLink, firstMatchOver, linkCandidates,
          assignLink, List.find?, h1, h2, h3]
      · by_cases h4 : distanceBetweenSq vi.endp vj.endp ≤ 1
        · simp [linkPair, firstMatchLink, firstMatchOver, linkCandidates,
            assignLink, List.find?, h1, h2, h3, h4]
        · cases hI : vi.isPoints with
          | true =>
            by_cases h5 : distanceBetweenSq vi.reverse vj.origin ≤ 1
            · simp [linkPair, firstMatchLink, firstMatchOver, linkCandidates,
                assignLink, List.find?, h1, h2, h3, h4, hI, h5]
            · by_cases h6 : distanceBetweenSq vi.reverse vj.endp ≤ 1
              · simp [linkPair, firstMatchLink, firstMatchOver,
                  linkCandidates, assignLink, List.find?, h1, h2, h3, h4,
                  hI, h5, h6]
              · simp [linkPair, firstMatchLink, firstMatchOver,
                  linkCandidates, assignLink, List.find?, h1, h2, h3, h4,
                  hI, h5, h6]
          | false =>
            cases hJ : vj.isPoints with
            | true =>
              by_cases h5 : distanceBetweenSq vi.origin vj.reverse ≤ 1
              · simp [linkPair, firstMatchLink, firstMatchOver,
                  linkCandidates, assignLink, List.find?, h1, h2, h3, h4,
                  hI, hJ, h5]
              · by_cases h6 : distanceBetweenSq vi.endp vj.reverse ≤ 1
                · simp [linkPair, firstMatchLink, firstMatchOver,
                    linkCandidates, assignLink, List.find?, h1, h2, h3, h4,
                    hI, hJ, h5, h6]
                · simp [linkPair, firstMatchLink, firstMatchOver,
                    linkCandidates, assignLink, List.find?, h1, h2, h3, h4,
                    hI, hJ, h5, h6]
            | false =>
              simp [linkPair, firstMatchLink, firstMatchOver, linkCandidates,
                assignLink, List.find?, h1, h2, h3, h4, hI, hJ]

/-- Helper: one double-loop iteration is first-match iteration. -/
lemma applyLinkPair_eq_applyFirstMatch (m : List (Nat × TrackItem))
    (ki kj : Nat) : applyLinkPair m ki kj = applyFirstMatch m ki kj := by
  unfold applyLinkPair applyFirstMatch
  cases List.lookup ki m <;> cases List.lookup kj m <;>
    simp [linkPair_eq_firstMatchLink]

/-- C2 (counterexample): with two switch items whose only near endpoints
are the second switch's reverse point and the first switch's origin, the
source's `elif` chain enters the first switch's reverse branch, finds
nothing, and never examines the second switch's reverse point — so the
builder links nothing — while the claim's "whenever one side is a switch
element" reading does establish a previous/reverse link for the pair. -/
theorem switch_pair_reverse_counterexample :
    linkPair exSwA exSwB = (exSwA, exSwB) ∧
    claimLinkPair exSwA exSwB =
      ({ exSwA with previousItem := some 2 },
       { exSwB with reverseItem := some 1 }) ∧
    claimLinkPair exSwA exSwB ≠ linkPair exSwA exSwB ∧
    createTrackItemsLinks exSwMap = exSwMap ∧
    claimCreateTrackItemsLinks exSwMap =
      [(1, { exSwA with previousItem := some 2 }),
       (2, { exSwB with reverseItem := some 1 })] ∧
    claimCreateTrackItemsLinks exSwMap ≠ createTrackItemsLinks exSwMap := by
  have hp : linkPair exSwA exSwB = (exSwA, exSwB) := by
    norm_num [linkPair, distanceBetweenSq, exSwA, exSwB, TrackItem.isPoints]
  have hc : claimLinkPair exSwA exSwB =
      ({ exSwA with previousItem := some 2 },
       { exSwB with reverseItem := some 1 }) := by
    norm_num [claimLinkPair, claimLinkCandidates, firstMatchOver,
      List.find?, distanceBetweenSq, exSwA, exSwB, TrackItem.isPoints,
      assignLink]
  have hbuild : createTrackItemsLinks exSwMap = exSwMap := by
    have h0 : createTrackItemsLinks exSwMap =
        setItem (setItem exSwMap 1 (linkPair exSwA exSwB).1) 2
          (linkPair exSwA exSwB).2 := rfl
    rw [h0, hp]
    rfl
  have hcbuild : claimCreateTrackItemsLinks exSwMap =
      [(1, { exSwA with previousItem := some 2 }),
       (2, { exSwB with reverseItem := some 1 })] := by
    have h0 : claimCreateTrackItemsLinks exSwMap =
        setItem (setItem exSwMap 1 (claimLinkPair exSwA exSwB).1) 2
          (claimLinkPair exSwA exSwB).2 := rfl
    rw [h0, hc]
    rfl
  refine ⟨hp, hc, ?_, hbuild, hcbuild, ?_⟩
  · rw [hp, hc]
    simp [exSwA, exSwB, Prod.ext_iff]
  · rw [hbuild, hcbuild]
    simp [exSwA, exSwB, exSwMap]

/-- C2 (amended): for every pair the source's comparison chain is exactly
first-match evaluation of the precedence-ordered candidate list in which —
after the four endpoint comparisons — only the first switch side's reverse
point is examined (the second side's reverse point only when the first side
is not a switch); and the whole builder is the fold of that first-match
step over every `ki < kj` key pair in dict order. -/
theorem linkPair_first_match_semantics :
    (∀ vi vj : TrackItem, linkPair vi vj = firstMatchLink vi vj) ∧
    (∀ m : List (Nat × TrackItem),
      createTrackItemsLinks m = buildFirstMatch m) := by
  refine ⟨linkPair_eq_firstMatchLink, ?_⟩
  intro m
  unfold createTrackItemsLinks buildFirstMatch
  have hf : (fun (acc : List (Nat × TrackItem)) (pr : Nat × Nat) =>
      applyLinkPair acc pr.1 pr.2) =
      (fun acc pr => applyFirstMatch acc pr.1 pr.2) :=
    funext fun acc => funext fun pr => applyLinkPair_eq_applyFirstMatch _ _ _
  rw [hf]

/-- Helper: unfolding of `totalViolations` on a cons cell. -/
lemma totalViolations_cons (p : Nat × TrackItem)
    (rest : List (Nat × TrackItem)) :
    totalViolations (p :: rest) = itemViolations p.2 + totalViolations rest :=
  rfl

/-- Helper: the validator loop returns `acc.1 && (no violations)` and
appends one message per violation. -/
lemma checkLinksLoop_spec (items : List (Nat × TrackItem)) :
    ∀ acc : Bool × List String,
      (checkLinksLoop acc items).1 =
        (acc.1 && items.all fun p => itemViolations p.2 == 0) ∧
      (checkLinksLoop acc items).2.length =
        acc.2.length + totalViolations items := by
  induction items with
  | nil => intro acc; simp [checkLinksLoop, totalViolations]
  | cons p rest ih =>
    intro acc
    by_cases hc : (p.2.cat == TICat.placeItem || p.2.cat == TICat.platformItem
        || p.2.cat == TICat.textItem) = true
    · have hv : itemViolations p.2 = 0 := by simp [itemViolations, hc]
      simp only [checkLinksLoop, hc, if_true, List.all_cons,
        totalViolations_cons, hv, beq_self_eq_true, Bool.true_and,
        Nat.zero_add]
      exact ih acc
    · by_cases hn : (p.2.nextItem == none && !(p.2.cat == TICat.endItem)) = true
      · by_cases hp : (p.2.previousItem == none) = true
        · have hv : itemViolations p.2 = 2 := by
            simp [itemViolations, hc, hn, hp]
          simp only [checkLinksLoop, hc, hn, hp, if_true, if_false,
            Bool.false_eq_true, List.all_cons, totalViolations_cons, hv]
          obtain ⟨ihl, ihr⟩ := ih (false,
            (acc.2 ++ ["TrackItem " ++ toString p.2.tiId ++
              " is unlinked at end"]) ++
              ["TrackItem " ++ toString p.2.tiId ++ " is unlinked at origin"])
          refine ⟨?_, ?_⟩
          · rw [ihl]; simp [hv]
          · rw [ihr]; simp [List.length_append]; omega
        · have hv : itemViolations p.2 = 1 := by
            simp [itemViolations, hc, hn, hp]
          simp only [checkLinksLoop, hc, hn, hp, Bool.false_eq_true,
            if_true, if_false, List.all_cons, totalViolations_cons, hv]
          obtain ⟨ihl, ihr⟩ := ih (false,
            acc.2 ++ ["TrackItem " ++ toString p.2.tiId ++
              " is unlinked at end"])
          refine ⟨?_, ?_⟩
          · rw [ihl]; simp [hv]
          · rw [ihr]; simp [List.length_append]; omega
      · by_cases hp : (p.2.previousItem == none) = true
        · have hv : itemViolations p.2 = 1 := by
            simp [itemViolations, hc, hn, hp]
          simp only [checkLinksLoop, hc, hn, hp, Bool.false_eq_true,
            if_true, if_false, List.all_cons, totalViolations_cons, hv]
          obtain ⟨ihl, ihr⟩ := ih (false,
            acc.2 ++ ["TrackItem " ++ toString p.2.tiId ++
              " is unlinked at origin"])
          refine ⟨?_, ?_⟩
          · rw [ihl]; simp [hv]
          · rw [ihr]; simp [List.length_append]; omega
        · have hv : itemViolations p.2 = 0 := by
            simp [itemViolations, hc, hn, hp]
          simp only [checkLinksLoop, hc, hn, hp, Bool.false_eq_true,
            if_false, List.all_cons, totalViolations_cons, hv,
            beq_self_eq_true, Bool.true_and, Nat.zero_add]
          exact ih acc

/-- Helper: an item contributes violations iff it is outside the
place/platform/text categories and misses a previous link or (for
non-terminators) a next link. -/
lemma itemViolations_pos_iff (ti : TrackItem) :
    itemViolations ti ≠ 0 ↔
      (ti.cat ≠ TICat.placeItem ∧ ti.cat ≠ TICat.platformItem ∧
       ti.cat ≠ TICat.textItem) ∧
      (ti.previousItem = none ∨
       (ti.cat ≠ TICat.endItem ∧ ti.nextItem = none)) := by
  unfold itemViolations
  split_ifs with h1 h2 h3 <;> simp_all <;> tauto

/-- C3: link validation returns `false` iff at least one element outside
the place/platform/text categories lacks a previous link or (for
non-terminator elements) lacks a next link; there is no early exit — one
message is recorded per violation (plus the opening log line), and on a
topology where every required element has its links the result is
`true`. -/
theorem checkTrackItemsLinks_spec (items : List (Nat × TrackItem)) :
    ((checkTrackItemsLinks items).1 = false ↔
      ∃ p ∈ items,
        (p.2.cat ≠ TICat.placeItem ∧ p.2.cat ≠ TICat.platformItem ∧
         p.2.cat ≠ TICat.textItem) ∧
        (p.2.previousItem = none ∨
         (p.2.cat ≠ TICat.endItem ∧ p.2.nextItem = none))) ∧
    (checkTrackItemsLinks items).2.length = 1 + totalViolations items := by
  obtain ⟨hl, hr⟩ :=
    checkLinksLoop_spec items (true, ["Checking TrackItem links"])
  constructor
  · rw [show (checkTrackItemsLinks items).1 =
        (true && items.all fun p => itemViolations p.2 == 0) from hl]
    simp only [Bool.true_and]
    rw [← Bool.not_eq_true, List.all_eq_true]
    simp only [beq_iff_eq]
    push_neg
    constructor
    · rintro ⟨p, hp, hv⟩
      exact ⟨p, hp, (itemViolations_pos_iff p.2).mp hv⟩
    · rintro ⟨p, hp, hv⟩
      exact ⟨p, hp, (itemViolations_pos_iff p.2).mpr hv⟩
  · rw [show (checkTrackItemsLinks items).2.length =
        (["Checking TrackItem links"] : List String).length +
          totalViolations items from hr]
    simp

/-- Helper: the route scan returns `none` iff no registered route links the
two signals. -/
lemma findRouteIn_eq_none_iff (routes : List (Nat × Route)) (a b : Nat) :
    findRouteIn routes a b = none ↔ ∀ p ∈ routes, p.2.links a b = false := by
  induction routes with
  | nil => simp [findRouteIn]
  | cons p rest ih =>
    cases hb : p.2.links a b with
    | true => simp [findRouteIn, hb]
    | false => simp [findRouteIn, hb, ih]

/-- Helper: a found route links the signals and is the first such in scan
order. -/
lemma findRouteIn_eq_some (routes : List (Nat × Route)) (a b : Nat)
    (r : Route) :
    findRouteIn routes a b = some r →
      r.links a b = true ∧
      ∃ pre k post, routes = pre ++ (k, r) :: post ∧
        ∀ p ∈ pre, p.2.links a b = false := by
  induction routes with
  | nil => simp [findRouteIn]
  | cons p rest ih =>
    intro h
    cases hb : p.2.links a b with
    | true =>
      rw [findRouteIn, if_pos hb] at h
      obtain rfl : p.2 = r := by injection h
      exact ⟨hb, [], p.1, rest, by simp, by simp⟩
    | false =>
      rw [findRouteIn, if_neg (by simp [hb])] at h
      obtain ⟨hl, pre, k, post, heq, hpre⟩ := ih h
      refine ⟨hl, p :: pre, k, post, by simp [heq], ?_⟩
      intro q hq
      rcases List.mem_cons.mp hq with rfl | hq2
      · exact hb
      · exact hpre q hq2

/-- C7: `findRoute` is a linear scan of the registered routes returning the
first route whose entry signal is the first argument and whose exit signal
is the second, in exactly that order, or `none` when no such route exists;
directionality matters — with a single registered route A→B (A ≠ B), the
query (A, B) returns it and the query (B, A) returns `none`. -/
theorem findRoute_scan_spec (st : SimState) (a b : Nat) :
    (findRoute st a b = none ↔ ∀ p ∈ st.routes, p.2.links a b = false) ∧
    (∀ r : Route, findRoute st a b = some r →
      r.links a b = true ∧
      ∃ pre k post, st.routes = pre ++ (k, r) :: post ∧
        ∀ p ∈ pre, p.2.links a b = false) ∧
    (∀ (k : Nat) (r0 : Route), r0.beginSignal = a → r0.endSignal = b →
      a ≠ b →
      findRoute { st with routes := [(k, r0)] } a b = some r0 ∧
      findRoute { st with routes := [(k, r0)] } b a = none) := by
  refine ⟨findRouteIn_eq_none_iff st.routes a b,
    fun r => findRouteIn_eq_some st.routes a b r, ?_⟩
  intro k r0 ha hb hne
  constructor
  · simp [findRoute, findRouteIn, Route.links, ha, hb]
  · simp [findRoute, findRouteIn, Route.links, ha, hb, hne,
      Ne.symm hne]

/-- C7 (witness): on the registry holding only the route 1→2, the query
(1, 2) finds it and the reversed query (2, 1) finds nothing. -/
theorem findRoute_scan_spec_witness :
    findRoute exRegistry 1 2 = some exRoute1 ∧
    findRoute exRegistry 2 1 = none := by
  have h := (findRoute_scan_spec exRegistry 1 2).2.2 1 exRoute1 rfl rfl
    (by decide)
  exact ⟨h.1, h.2⟩

/-- Helper: looking up a key in the track-item list after a keyed
unselect-update. -/
lemma lookup_unselect_map (m : List (Nat × TrackItem)) (k k2 : Nat) :
    List.lookup k2
        (m.map fun p =>
          if p.1 == k then (p.1, { p.2 with selected := false }) else p) =
      if k2 = k then
        (List.lookup k2 m).map fun ti => { ti with selected := false }
      else List.lookup k2 m := by
  induction m with
  | nil => by_cases h : k2 = k <;> simp [h]
  | cons p rest ih =>
    obtain ⟨pk, pv⟩ := p
    simp only [List.map_cons]
    rcases eq_or_ne k2 pk with rfl | hk2ne
    · have hb : (k2 == k2) = true := beq_self_eq_true k2
      by_cases hpk : (k2 == k) = true
      · have hpk2 : k2 = k := by simpa using hpk
        rw [if_pos hpk, List.lookup_cons, List.lookup_cons, hb]
        simp [hpk2]
      · have hpk2 : ¬k2 = k := by simpa using hpk
        rw [if_neg hpk, List.lookup_cons, List.lookup_cons, hb]
        simp [hpk2]
    · have hb : (k2 == pk) = false := beq_eq_false_iff_ne.mpr hk2ne
      by_cases hpk : (pk == k) = true
      · rw [if_pos hpk, List.lookup_cons, List.lookup_cons, hb]
        exact ih
      · rw [if_neg hpk, List.lookup_cons, List.lookup_cons, hb]
        exact ih

/-- Helper: `unselectTI` clears the selection flag of the given id and
leaves every other id's item unchanged. -/
lemma lookup_unselectTI (st : SimState) (k k2 : Nat) :
    trackItem (unselectTI st k) k2 =
      if k2 = k then
        (trackItem st k2).map fun ti => { ti with selected := false }
      else trackItem st k2 := by
  unfold trackItem unselectTI
  exact lookup_unselect_map st.trackItems k k2

/-- C6: with signal `a` armed and a second signal `siId` selected such that
no directional route a→siId exists, the controller unselects `a`, emits the
no-route notification carrying `(a, siId)` (and logs it), leaves the routes
untouched, and transitions to Armed(`siId`). -/
theorem activateRoute_no_route_spec (st : SimState) (a siId : Nat)
    (si : TrackItem)
    (hlk : List.lookup siId st.trackItems = some si)
    (hsel : st.selectedSignal = some a)
    (hne : a ≠ siId)
    (hfr : findRoute st a siId = none)
    (persistent force : Bool) :
    ∃ st2, activateRoute st siId persistent force = Except.ok st2 ∧
      st2.selectedSignal = some siId ∧
      st2.routes = st.routes ∧
      st2.notifications =
        st.notifications ++ [Notification.noRouteBetweenSignals a siId] ∧
      st2.messages = st.messages ++ ["No route between signals"] ∧
      trackItem st2 a =
        (trackItem st a).map (fun ti => { ti with selected := false }) ∧
      (∀ k2, k2 ≠ a → trackItem st2 k2 = trackItem st k2) := by
  refine ⟨addMessage
      { unselectTI (emit st (Notification.noRouteBetweenSignals a siId)) a
          with selectedSignal := some siId } "No route between signals",
    ?_, rfl, rfl, rfl, rfl, ?_, ?_⟩
  · simp [activateRoute, hlk, hsel, hfr, hne]
  · have h := lookup_unselectTI
      (emit st (Notification.noRouteBetweenSignals a siId)) a a
    simpa using h
  · intro k2 hk2
    have h := lookup_unselectTI
      (emit st (Notification.noRouteBetweenSignals a siId)) a k2
    simpa [hk2] using h

/-- C6 (witness): in `exNoRoute` (signal 1 armed, empty route registry),
selecting signal 2 arms signal 2 and emits the no-route notification. -/
theorem activateRoute_no_route_spec_witness :
    ∃ st2, activateRoute exNoRoute 2 false false = Except.ok st2 ∧
      st2.selectedSignal = some 2 ∧
      st2.notifications = [Notification.noRouteBetweenSignals 1 2] := by
  obtain ⟨st2, h1, h2, _, h4, _⟩ := activateRoute_no_route_spec exNoRoute 1 2
    (sigTI 2) rfl rfl (by decide) rfl false false
  exact ⟨st2, h1, h2, h4⟩

/-- C1 (counterexample): in `exConflict` (signal 1 armed, route 1→2 blocked
by the active overlapping route 2), selecting signal 2 without force emits
the conflict notification, unselects only signal 2 and mutates no route —
but the controller does NOT return to Idle: signal 1 stays armed
(`selectedSignal` is still `some 1`) and its selection flag is still set,
contradicting the claim that the selection of A is cleared. -/
theorem conflict_keeps_armed_counterexample :
    ∃ st2, activateRoute exConflict 2 false false = Except.ok st2 ∧
      st2.routes = exConflict.routes ∧
      st2.notifications = [Notification.conflictingRoute 1] ∧
      st2.selectedSignal = some 1 ∧
      st2.selectedSignal ≠ none ∧
      (trackItem st2 1).map TrackItem.selected = some true ∧
      (trackItem st2 2).map TrackItem.selected = some false := by
  exact ⟨_, rfl, rfl, rfl, rfl, fun hx => Option.noConfusion hx, rfl, rfl⟩

/-- C1 (amended): with signal `a` armed, a second signal `siId` selected, a
route a→siId found but not activatable, and the force flag unset, no
route's activation state is mutated, only `siId` is unselected, the
conflicting-route notification is emitted (and logged) — and the controller
stays Armed(`a`): `selectedSignal` keeps `a` and `a`'s item (with its
selection flag) is untouched. -/
theorem activateRoute_conflict_spec (st : SimState) (a siId : Nat)
    (si : TrackItem) (r : Route)
    (hlk : List.lookup siId st.trackItems = some si)
    (hsel : st.selectedSignal = some a)
    (hne : a ≠ siId)
    (hfr : findRoute st a siId = some r)
    (hact : isActivable st r = false)
    (persistent : Bool) :
    ∃ st2, activateRoute st siId persistent false = Except.ok st2 ∧
      st2.routes = st.routes ∧
      st2.selectedSignal = some a ∧
      st2.notifications =
        st.notifications ++ [Notification.conflictingRoute r.routeNum] ∧
      st2.messages = st.messages ++ ["Conflicting route"] ∧
      trackItem st2 siId =
        (trackItem st siId).map (fun ti => { ti with selected := false }) ∧
      (∀ k2, k2 ≠ siId → trackItem st2 k2 = trackItem st k2) := by
  refine ⟨addMessage
      (unselectTI (emit st (Notification.conflictingRoute r.routeNum)) siId)
      "Conflicting route",
    ?_, rfl, hsel, rfl, rfl, ?_, ?_⟩
  · simp [activateRoute, hlk, hsel, hfr, hne, hact]
  · have h := lookup_unselectTI
      (emit st (Notification.conflictingRoute r.routeNum)) siId siId
    simpa using h
  · intro k2 hk2
    have h := lookup_unselectTI
      (emit st (Notification.conflictingRoute r.routeNum)) siId k2
    simpa [hk2] using h

/-- C1 (witness): the amended conflict behaviour instantiated on
`exConflict`. -/
theorem activateRoute_conflict_spec_witness :
    ∃ st2, activateRoute exConflict 2 false false = Except.ok st2 ∧
      st2.routes = exConflict.routes ∧
      st2.selectedSignal = some 1 := by
  obtain ⟨st2, h1, h2, h3, _⟩ := activateRoute_conflict_spec exConflict 1 2
    (sigTI 2) exRoute1 rfl rfl (by decide) rfl rfl false
  exact ⟨st2, h1, h2, h3⟩

/-- C4: a tick advances the simulated time by `interval * timeFactor`
milliseconds (wrapping within the day) and emits exactly two
notifications — the new absolute time and the elapsed seconds
`interval * timeFactor / 1000`; from the initial state (06:00:00, cadence
500, factor 5) one tick advances the time by 2500 ms to 06:00:02.500 and
reports 2.5 elapsed seconds. -/
theorem timerOut_tick_spec (st : ClockState) (h : st.interval = 500) :
    (timerOut st).1.timeMs =
      (st.timeMs + 500 * st.timeFactor).emod msPerDay ∧
    (timerOut st).2 =
      [Notification.timeChanged
        ((st.timeMs + 500 * st.timeFactor).emod msPerDay),
       Notification.timeElapsed (((500 * st.timeFactor : Int) : ℚ) / 1000)] ∧
    (timerOut st).2.length = 2 ∧
    (timerOut initialClock).1.timeMs = 21602500 ∧
    (timerOut initialClock).2 =
      [Notification.timeChanged 21602500,
       Notification.timeElapsed (5 / 2)] := by
  refine ⟨?_, ?_, ?_, ?_, ?_⟩
  · simp [timerOut, h]
  · simp [timerOut, h]
  · simp [timerOut]
  · simp [timerOut, initialClock, msPerDay]
    decide
  · simp [timerOut, initialClock, msPerDay]
    norm_num

/-- C4 (witness): the tick behaviour instantiated on the initial clock
state. -/
theorem timerOut_tick_spec_witness :
    initialClock.interval = 500 ∧
    (timerOut initialClock).1.timeMs = 21602500 :=
  ⟨rfl, (timerOut_tick_spec initialClock rfl).2.2.2.1⟩

/-- C5: `setTimeFactor` stores `min(argument, 10)` on every call, leaves
the timer running exactly when the argument is nonzero (so a positive
factor (re)starts ticking and factor 0 halts tick emission entirely), and
in particular `setTimeFactor 15` stores 10 and `setTimeFactor 0` leaves the
timer stopped. -/
theorem setTimeFactor_clamp_spec (st : ClockState) (t : Int) :
    (setTimeFactor st t).timeFactor = min t 10 ∧
    (setTimeFactor st t).timerRunning = (t != 0) ∧
    (setTimeFactor st 15).timeFactor = 10 ∧
    (setTimeFactor st 0).timerRunning = false := by
  unfold setTimeFactor
  refine ⟨?_, ?_, ?_, ?_⟩ <;> split_ifs <;> simp_all

/-- C9: `setTimeFactor` stores exactly `min(argument, 10)` with no lower
bound (a negative argument is stored as a negative factor) and restarts the
timer for every nonzero argument; a tick with a negative stored factor
moves the simulated time backwards. -/
theorem setTimeFactor_negative_spec (st : ClockState) (t : Int) :
    (setTimeFactor st t).timeFactor = min t 10 ∧
    (setTimeFactor st (-7)).timeFactor = -7 ∧
    (setTimeFactor st t).timerRunning = (t != 0) ∧
    (∀ st2 : ClockState, st2.timeFactor < 0 → 0 < st2.interval →
      0 ≤ st2.timeMs + st2.interval * st2.timeFactor →
      st2.timeMs < msPerDay →
      (timerOut st2).1.timeMs < st2.timeMs) := by
  refine ⟨?_, ?_, ?_, ?_⟩
  · unfold setTimeFactor; split_ifs <;> simp_all
  · unfold setTimeFactor; norm_num
  · unfold setTimeFactor; split_ifs <;> simp_all
  · intro st2 hf hi hge hlt
    have hneg : st2.interval * st2.timeFactor < 0 :=
      mul_neg_of_pos_of_neg hi hf
    have hx : (st2.timeMs + st2.interval * st2.timeFactor).emod msPerDay =
        st2.timeMs + st2.interval * st2.timeFactor :=
      Int.emod_eq_of_lt hge (by unfold msPerDay at *; omega)
    simp only [timerOut, hx]
    omega

/-- C9 (witness): `setTimeFactor(-7)` stores −7, and a tick of a clock
whose stored factor is −3 moves the time backwards. -/
theorem setTimeFactor_negative_spec_witness :
    (setTimeFactor initialClock (-7)).timeFactor = -7 ∧
    (timerOut exBackClock).1.timeMs < exBackClock.timeMs := by
  have h := setTimeFactor_negative_spec initialClock (-7)
  exact ⟨h.2.1,
    h.2.2.2 exBackClock (by decide) (by decide) (by decide) (by decide)⟩

/-- C8 (counterexample): a record whose `__type__` is the empty string — a
discriminator that is not one of the recognized kinds — is passed through
unchanged by `json_hook` (because `not dct.get('__type__')` treats the
falsy empty string like an absent key) instead of raising a format
error. -/
theorem json_hook_empty_tag_counterexample :
    json_hook { typeField := some "" } =
      Except.ok (SimObject.rawDict { typeField := some "" }) ∧
    ¬ ("" ∈ recognizedTypes) ∧
    ∀ e, json_hook { typeField := some "" } ≠ Except.error e := by
  refine ⟨rfl, by simp [recognizedTypes], ?_⟩
  intro e
  simp [json_hook]

/-- C8 (amended): `json_hook` raises a format error exactly for records
whose discriminator is present, non-empty and not one of the recognized
kinds (records with a missing or empty discriminator pass through
unchanged), and a top-level document that is not a recognized simulation
makes `load` raise a fatal format error before any topology work
begins. -/
theorem json_hook_dispatch_spec (dct : JsonRecord) :
    ((∃ e, json_hook dct = Except.error e) ↔
      ∃ t, dct.typeField = some t ∧ t ≠ "" ∧ t ∉ recognizedTypes) ∧
    (∀ v : SimObject, v ≠ SimObject.simulationObj →
      load v =
        Except.error
          (SimErr.formatException "Loaded file is not a TS2 simulation")) := by
  constructor
  · obtain ⟨tf⟩ := dct
    cases tf with
    | none => simp [json_hook]
    | some t =>
      constructor
      · rintro ⟨e, heq⟩
        by_cases h0 : t = ""
        · subst h0; simp [json_hook] at heq
        · by_cases hmem : t ∈ recognizedTypes
          · simp only [recognizedTypes, List.mem_cons, List.not_mem_nil,
              or_false] at hmem
            rcases hmem with h|h|h|h|h|h|h|h|h|h|h|h|h|h|h|h|h <;>
              (subst h; simp [json_hook] at heq)
          · exact ⟨t, rfl, h0, hmem⟩
      · rintro ⟨t2, ht2, hne, hmem⟩
        have ht : t = t2 := by injection ht2
        subst ht
        simp only [recognizedTypes, List.mem_cons, List.not_mem_nil,
          or_false, not_or] at hmem
        obtain ⟨e1, e2, e3, e4, e5, e6, e7, e8, e9, e10, e11, e12, e13, e14,
          e15, e16, e17⟩ := hmem
        refine ⟨SimErr.formatException ("Unknown __type__ " ++ t), ?_⟩
        simp only [json_hook]
        rw [if_neg hne, if_neg e1, if_neg e2, if_neg e3, if_neg e4,
          if_neg e5, if_neg e6, if_neg e7, if_neg e8, if_neg e9, if_neg e10,
          if_neg e11, if_neg e12, if_neg e13, if_neg e14, if_neg e15,
          if_neg e16, if_neg e17]
  · intro v hv
    cases v <;> simp_all [load]

/-- C8 (witness): the record tagged "Bogus" raises a format error, and
loading a top-level plain dict raises the not-a-simulation format error. -/
theorem json_hook_dispatch_spec_witness :
    (∃ e, json_hook { typeField := some "Bogus" } = Except.error e) ∧
    load (SimObject.rawDict { typeField := none }) =
      Except.error
        (SimErr.formatException "Loaded file is not a TS2 simulation") := by
  have h := json_hook_dispatch_spec { typeField := some "Bogus" }
  refine ⟨h.1.mpr ⟨"Bogus", rfl, by simp, by simp [recognizedTypes]⟩,
    h.2 _ (by simp)⟩

/-- C10: for an id absent from the track-item mapping, both
`activateRoute` and `desactivateRoute` raise a key-lookup error (they index
`_trackItems` directly) rather than being a no-op, while the `trackItem`
accessor returns `None` for the same id. -/
theorem missing_trackitem_raises (st : SimState) (siId : Nat)
    (persistent force : Bool)
    (h : List.lookup siId st.trackItems = none) :
    activateRoute st siId persistent force =
      Except.error (SimErr.keyError siId) ∧
    desactivateRoute st siId = Except.error (SimErr.keyError siId) ∧
    trackItem st siId = none := by
  refine ⟨?_, ?_, h⟩
  · simp [activateRoute, h]
  · simp [desactivateRoute, h]

/-- C10 (witness): id 5 in the empty state. -/
theorem missing_trackitem_raises_witness :
    activateRoute exEmpty 5 false false =
      Except.error (SimErr.keyError 5) ∧
    desactivateRoute exEmpty 5 = Except.error (SimErr.keyError 5) ∧
    trackItem exEmpty 5 = none :=
  missing_trackitem_raises exEmpty 5 false false rfl

end TS2
